import Mathlib

/-!
# Verification of the scootjs resource/connection data model

A shallow embedding of `src/lib/resources/compute.js` and the
collaborators it uses.  Objects are modelled as Lean structures carrying
an explicit heap address (`addr`), so that JavaScript reference identity
(`===`) becomes equality of addresses.  The process-global state needed
by the identity allocator is threaded explicitly through a `World`
record.  Fallible construction returns `Except Err`.
-/

namespace Scoot

/-- The resource-kind tags from `src/lib/types` (file absent from src;
the two tags are those used by `compute.js` and the event test). -/
inductive RType where
  | Compute
  | InternalEvent
deriving DecidableEq, Repr

/-- The error kinds of the design (§7 of the spec). -/
inductive Err where
  | MissingArgument
  | InvalidIdentifier
  | ImmutableFieldError
deriving DecidableEq, Repr

/-- Modelled from the spec: the Identifier Validator
(`validateId` lives in `src/lib/utils`, absent from src).  Spec §4.1 and
the design notes prescribe a conservative grammar: non-empty,
letters/digits only, no whitespace or other separators; this rejects the
test's `"my-bad id-for my event"` and accepts `"MyInternalEvent"`. -/
def validId (s : String) : Bool :=
  s ≠ "" && s.data.all Char.isAlphanum

/-- Process-global state: the counters backing the Identity Allocator
and heap-address allocation. -/
structure World where
  nextUuid : Nat
  nextAddr : Nat
deriving DecidableEq, Repr

/-- Modelled from the spec: the Identity Allocator (§4.2; the code uses
the external `uuid/v4` package).  It produces a fresh identifier with no
observable collisions and no dependency on any user label; embedded as a
strictly increasing counter drawn from the process state. -/
def uuid (w : World) : Nat × World :=
  (w.nextUuid, { w with nextUuid := w.nextUuid + 1 })

/-- Allocation of a fresh heap address for a newly constructed object
(the embedding of JavaScript object identity). -/
def allocAddr (w : World) : Nat × World :=
  (w.nextAddr, { w with nextAddr := w.nextAddr + 1 })

/-- The read-only metadata block built at construction
(`compute.js` lines 28–34): the allocator-produced instance identifier
and the kind tag. -/
structure Meta where
  id : Nat
  type' : RType
deriving DecidableEq, Repr

/-- Modelled from the spec: a Trigger connection
(`src/lib/connections/trigger.js` absent from src).  Per §3 it is the
edge `{from: source Event, to: destination Resource}`; `from`/`to` hold
references to the connected objects, embedded as their addresses. -/
structure Trigger where
  fromAddr : Nat
  toAddr : Nat
deriving DecidableEq, Repr

/-- Modelled from the spec: a Reference connection
(`src/lib/connections/reference.js` absent from src).  Per §3 it is
`{name, from: source Resource, to: target Resource, allow: actions}`,
with `from`/`to` embedded as addresses. -/
structure Reference where
  name : String
  fromAddr : Nat
  toAddr : Nat
  allow : List String
deriving DecidableEq, Repr

/-- The fields of a resource that an assignment statement can target,
used by the Immutability Guard. -/
inductive Field where
  | meta
  | config_id
  | config_runtime
  | config_vcs
  | config_code
  | config_description
  | config_environment
  | config_tags
  | config_triggers
  | config_references
deriving DecidableEq, Repr

/-- The mutable configuration container built by `compute.js`
(lines 35–42).  JavaScript objects used as maps (`environment`, `tags`)
are embedded as insertion-ordered association lists; fields assigned
only later by fluent methods (`vcs`, `code`, `description`) are
`Option`-valued, absent at construction. -/
structure Config where
  id : String
  runtime : String
  triggers : List Trigger
  references : List Reference
  environment : List (String × String)
  tags : List (String × String)
  vcs : Option String
  code : Option String
  description : Option String
deriving DecidableEq, Repr

/-- A compute resource: heap address (object identity), the sealed
metadata block, the mutable config, and the set of fields sealed by the
Immutability Guard. -/
structure Resource where
  addr : Nat
  meta : Meta
  config : Config
  frozen : List Field
deriving DecidableEq, Repr

/-- Modelled from the spec: the Immutability Guard (`freeze` in
`src/lib/utils`, absent from src).  Per §4.3 it marks a field of an
object as sealed against further writes. -/
def freeze (r : Resource) (f : Field) : Resource :=
  { r with frozen := f :: r.frozen }

/-- Key assignment on a JavaScript object used as a map
(`obj[k] = v`): overwrite in place when the key exists, else append. -/
def objSet (m : List (String × String)) (k v : String) :
    List (String × String) :=
  match m with
  | [] => [(k, v)]
  | (k', v') :: rest =>
      if k' = k then (k, v) :: rest else (k', v') :: objSet rest k v

/-- The `compute` factory (`compute.js` lines 16–47): assert non-empty
`id` and `runtime` (`MissingArgument`), validate the label
(`InvalidIdentifier`), then build `self` with a fresh instance
identifier and kind tag `Compute`, and seal `meta` and `config.id`.
On a failing path the world is returned unchanged: the asserts and the
validator run before `uuid()` is ever called. -/
def compute (id runtime : String) (w : World) :
    Except Err Resource × World :=
  if id = "" then (.error .MissingArgument, w)
  else if runtime = "" then (.error .MissingArgument, w)
  else if ¬ validId id then (.error .InvalidIdentifier, w)
  else
    let (u, w₁) := uuid w
    let (a, w₂) := allocAddr w₁
    let self : Resource :=
      { addr := a
        meta := { id := u, type' := .Compute }
        config :=
          { id := id
            runtime := runtime
            triggers := []
            references := []
            environment := []
            tags := []
            vcs := none
            code := none
            description := none }
        frozen := [] }
    (.ok (freeze (freeze self .meta) .config_id), w₂)

/-- Fluent method `vcs` (`compute.js` lines 55–58): sets the
source-control URL and returns self. -/
def vcs (self : Resource) (url : String) : Resource :=
  { self with config := { self.config with vcs := some url } }

/-- Fluent method `code` (`compute.js` lines 66–69): sets the inline
code content and returns self. -/
def code (self : Resource) (content : String) : Resource :=
  { self with config := { self.config with code := some content } }

/-- Fluent method `description` (`compute.js` lines 76–79). -/
def description (self : Resource) (text : String) : Resource :=
  { self with config := { self.config with description := some text } }

/-- Fluent method `env` (`compute.js` lines 88–91): inserts or
overwrites one environment entry. -/
def env (self : Resource) (name value : String) : Resource :=
  { self with config :=
      { self.config with
          environment := objSet self.config.environment name value } }

/-- Fluent method `tag` (`compute.js` lines 100–103). -/
def tag (self : Resource) (key value : String) : Resource :=
  { self with config :=
      { self.config with tags := objSet self.config.tags key value } }

/-- A minimal internal event, per §3 of the spec and the shape observed
in `src/test/events/ievent.test.js` (`_meta.type`, name). -/
structure Event where
  addr : Nat
  mtype : RType
  name : String
deriving DecidableEq, Repr

/-- Fluent method `on` (`compute.js` lines 111–118; `on` is a reserved
token in Lean, so the spec's name `onEvent` is used): appends the
trigger `trigger().from(event).to(self)` to `config.triggers` and
returns self. -/
def onEvent (self : Resource) (event : Event) : Resource :=
  { self with config :=
      { self.config with
          triggers :=
            self.config.triggers ++
              [{ fromAddr := event.addr, toAddr := self.addr }] } }

/-- Fluent method `use` (`compute.js` lines 123–135): the reference
name defaults to `resource.config.id + "Ref"` and is replaced by
`alias` only when `alias` is truthy (`if (alias)`: an absent alias and
the empty string are both falsy); the reference
`ref(name).from(self).to(resource).allow(actions)` is appended to
`config.references` and self is returned. -/
def use (self resource : Resource) (actions : List String)
    (alias' : Option String) : Resource :=
  let name :=
    match alias' with
    | some a => if a ≠ "" then a else resource.config.id ++ "Ref"
    | none => resource.config.id ++ "Ref"
  { self with config :=
      { self.config with
          references :=
            self.config.references ++
              [{ name := name
                 fromAddr := self.addr
                 toAddr := resource.addr
                 allow := actions }] } }

/-- The payload type an assignment to each resource field carries. -/
def FieldVal : Field → Type
  | .meta => Meta
  | .config_id => String
  | .config_runtime => String
  | .config_vcs => String
  | .config_code => String
  | .config_description => String
  | .config_environment => List (String × String)
  | .config_tags => List (String × String)
  | .config_triggers => List Trigger
  | .config_references => List Reference

/-- Raw field update, with no guard applied. -/
def setField (r : Resource) : (f : Field) → FieldVal f → Resource
  | .meta, v => { r with meta := v }
  | .config_id, v => { r with config := { r.config with id := v } }
  | .config_runtime, v =>
      { r with config := { r.config with runtime := v } }
  | .config_vcs, v => { r with config := { r.config with vcs := some v } }
  | .config_code, v =>
      { r with config := { r.config with code := some v } }
  | .config_description, v =>
      { r with config := { r.config with description := some v } }
  | .config_environment, v =>
      { r with config := { r.config with environment := v } }
  | .config_tags, v => { r with config := { r.config with tags := v } }
  | .config_triggers, v =>
      { r with config := { r.config with triggers := v } }
  | .config_references, v =>
      { r with config := { r.config with references := v } }

/-- Modelled from the spec: a field assignment channelled through the
Immutability Guard (§4.3, §7): writing a sealed field fails with
`ImmutableFieldError`; writing any other field succeeds and performs
the update. -/
def assign (r : Resource) (f : Field) (v : FieldVal f) :
    Except Err Resource :=
  if f ∈ r.frozen then .error .ImmutableFieldError
  else .ok (setField r f v)

/-- The resource value the `compute` factory constructs on its success
path: fresh instance identifier and address from the world, the
`Compute` kind tag, the given label and runtime, empty collections, and
`config.id` plus `meta` sealed. -/
def mkCompute (id runtime : String) (w : World) : Resource :=
  { addr := w.nextAddr
    meta := { id := w.nextUuid, type' := .Compute }
    config :=
      { id := id
        runtime := runtime
        triggers := []
        references := []
        environment := []
        tags := []
        vcs := none
        code := none
        description := none }
    frozen := [.config_id, .meta] }

/-- Modelled from the spec: the Event Factory `ievent`
(`src/lib/events/ievent.js` absent from src; only its test is present).
Per §4.6 it validates the name via the Identifier Validator (failing
with `InvalidIdentifier`) and returns an InternalEvent whose metadata
kind tag is the InternalEvent tag. -/
def ievent (name : String) (w : World) : Except Err Event × World :=
  if ¬ validId name then (.error .InvalidIdentifier, w)
  else
    let (a, w₁) := allocAddr w
    (.ok { addr := a, mtype := .InternalEvent, name := name }, w₁)

/-! ## Helper lemmas -/

theorem validId_ne_empty {s : String} (h : validId s = true) : s ≠ "" := by
  intro he
  rw [he] at h
  exact absurd h (by decide)

theorem compute_eq_ok (id runtime : String) (w : World)
    (h1 : id ≠ "") (h2 : runtime ≠ "") (h3 : validId id = true) :
    compute id runtime w =
      (.ok (mkCompute id runtime w),
       { nextUuid := w.nextUuid + 1, nextAddr := w.nextAddr + 1 }) := by
  simp [compute, h1, h2, h3, uuid, allocAddr, freeze, mkCompute]

theorem compute_ok_inv (id runtime : String) (w w' : World) (r : Resource)
    (h : compute id runtime w = (.ok r, w')) :
    r = mkCompute id runtime w ∧
    w' = { nextUuid := w.nextUuid + 1, nextAddr := w.nextAddr + 1 } := by
  by_cases h1 : id = ""
  · simp [compute, h1] at h
  · by_cases h2 : runtime = ""
    · simp [compute, h1, h2] at h
    · by_cases h3 : validId id = true
      · rw [compute_eq_ok id runtime w h1 h2 h3] at h
        simp only [Prod.mk.injEq, Except.ok.injEq] at h
        exact ⟨h.1.symm, h.2.symm⟩
      · have h3' : validId id = false := by simpa using h3
        simp [compute, h1, h2, h3'] at h

/-! ## Claim theorems -/

/-- C1: For every valid label `L` and every non-empty runtime, the
compute resource factory returns a resource whose `config.id` equals
`L`, whose `config.runtime` equals the given runtime, and whose
metadata kind tag equals the `Compute` tag. -/
theorem compute_returns_labelled_resource
    (L runtime : String) (w : World)
    (hL : validId L = true) (hr : runtime ≠ "") :
    ∃ r w', compute L runtime w = (.ok r, w') ∧
      r.config.id = L ∧ r.config.runtime = runtime ∧
      r.meta.type' = RType.Compute :=
  ⟨mkCompute L runtime w, _,
    compute_eq_ok L runtime w (validId_ne_empty hL) hr hL, rfl, rfl, rfl⟩

/-- Witness for C1 at the concrete label `"MyCompute"` and runtime
`"nodejs"`. -/
theorem compute_returns_labelled_resource_witness :
    ∃ r w', compute "MyCompute" "nodejs" ⟨0, 0⟩ = (.ok r, w') ∧
      r.config.id = "MyCompute" ∧ r.config.runtime = "nodejs" ∧
      r.meta.type' = RType.Compute :=
  compute_returns_labelled_resource "MyCompute" "nodejs" ⟨0, 0⟩
    (by decide) (by decide)

/-- C2: calling the compute factory with an empty label or an empty
runtime fails with `MissingArgument`, no resource is returned, and the
world (hence the identity-allocator counter) is untouched: the failure
happens before any object is constructed or any identifier is
allocated. -/
theorem compute_missing_argument (L runtime : String) (w : World)
    (h : L = "" ∨ runtime = "") :
    compute L runtime w = (.error .MissingArgument, w) := by
  rcases h with h | h
  · simp [compute, h]
  · by_cases hL : L = ""
    · simp [compute, hL]
    · simp [compute, hL, h]

/-- Witness for C2 at an empty label and at an empty runtime. -/
theorem compute_missing_argument_witness :
    compute "" "nodejs" ⟨0, 0⟩ = (.error .MissingArgument, ⟨0, 0⟩) ∧
    compute "c1" "" ⟨0, 0⟩ = (.error .MissingArgument, ⟨0, 0⟩) :=
  ⟨compute_missing_argument "" "nodejs" ⟨0, 0⟩ (Or.inl rfl),
   compute_missing_argument "c1" "" ⟨0, 0⟩ (Or.inr rfl)⟩

/-- C3: a non-empty label failing the identifier grammar makes both
label-validating factories — the compute factory (given a non-empty
runtime) and the event factory — fail with `InvalidIdentifier`, while
the event factory on a grammar-valid name returns an event whose
metadata kind tag is the `InternalEvent` tag. -/
theorem invalid_identifier_rejected
    (L runtime name : String) (w w' : World)
    (hL : L ≠ "") (hLbad : validId L = false) (hr : runtime ≠ "")
    (hn : validId name = true) :
    compute L runtime w = (.error .InvalidIdentifier, w) ∧
    ievent L w = (.error .InvalidIdentifier, w) ∧
    ∃ e w₂, ievent name w' = (.ok e, w₂) ∧
      e.mtype = RType.InternalEvent := by
  refine ⟨?_, ?_, ?_⟩
  · simp [compute, hL, hr, hLbad]
  · simp [ievent, hLbad]
  · exact ⟨⟨w'.nextAddr, .InternalEvent, name⟩,
      ⟨w'.nextUuid, w'.nextAddr + 1⟩,
      by simp [ievent, hn, allocAddr], rfl⟩

/-- Witness for C3 at the test's bad label
`"my-bad id-for my event"` and the valid name `"MyInternalEvent"`. -/
theorem invalid_identifier_rejected_witness :
    compute "my-bad id-for my event" "nodejs" ⟨0, 0⟩ =
      (.error .InvalidIdentifier, ⟨0, 0⟩) ∧
    ievent "my-bad id-for my event" ⟨0, 0⟩ =
      (.error .InvalidIdentifier, ⟨0, 0⟩) ∧
    ∃ e w₂, ievent "MyInternalEvent" ⟨0, 0⟩ = (.ok e, w₂) ∧
      e.mtype = RType.InternalEvent :=
  invalid_identifier_rejected "my-bad id-for my event" "nodejs"
    "MyInternalEvent" ⟨0, 0⟩ ⟨0, 0⟩ (by decide) (by decide) (by decide)
    (by decide)

/-- C4: `use t actions` with no alias appends to the references list
exactly one Reference named `t.config.id ++ "Ref"` whose `from` is the
calling resource, whose `to` is `t`, and whose allow list is the given
actions; with alias `"customAlias"` the appended Reference is named
`"customAlias"`. -/
theorem use_appends_reference (r t : Resource) (actions : List String) :
    (use r t actions none).config.references =
      r.config.references ++
        [{ name := t.config.id ++ "Ref", fromAddr := r.addr,
           toAddr := t.addr, allow := actions }] ∧
    (use r t actions (some "customAlias")).config.references =
      r.config.references ++
        [{ name := "customAlias", fromAddr := r.addr,
           toAddr := t.addr, allow := actions }] := by
  constructor <;> simp [use]

/-- C5: `onEvent e` appends exactly one Trigger to the triggers list —
the list grows by exactly that one entry, all earlier entries
unchanged — and the appended Trigger's `from` is the very event `e` and
its `to` the resource itself (address identity, not a copy). -/
theorem onEvent_appends_trigger (r : Resource) (e : Event) :
    (onEvent r e).config.triggers =
      r.config.triggers ++ [{ fromAddr := e.addr, toAddr := r.addr }] ∧
    (onEvent r e).config.triggers.length =
      r.config.triggers.length + 1 :=
  ⟨rfl, by simp [onEvent]⟩

/-- C6: every fluent method — `vcs`, `code`, `description`, `env`,
`tag`, `onEvent`, `use` — returns the very resource it was called on
(the same heap address), so a chain such as
`r.tag(k,a).env(n,v)` evaluates to `r` itself. -/
theorem fluent_returns_self (r t : Resource) (e : Event)
    (u c d n v k a : String) (acts : List String) (al : Option String) :
    (vcs r u).addr = r.addr ∧ (code r c).addr = r.addr ∧
    (description r d).addr = r.addr ∧ (env r n v).addr = r.addr ∧
    (tag r k a).addr = r.addr ∧ (onEvent r e).addr = r.addr ∧
    (use r t acts al).addr = r.addr ∧
    (env (tag r k a) n v).addr = r.addr :=
  ⟨rfl, rfl, rfl, rfl, rfl, rfl, rfl, rfl⟩

/-- C7: on any resource the compute factory returns, reassigning the
metadata block or `config.id` fails with `ImmutableFieldError`, every
other config field accepts writes, and every fluent method leaves
`meta` (instance identifier and kind tag) and `config.id` unchanged. -/
theorem sealed_identity_mutable_config
    (L runtime : String) (w w' : World) (r : Resource) (m : Meta)
    (s u c d n v k a : String) (e : Event) (t : Resource)
    (acts : List String) (al : Option String)
    (h : compute L runtime w = (.ok r, w')) :
    assign r .meta m = .error .ImmutableFieldError ∧
    assign r .config_id s = .error .ImmutableFieldError ∧
    (∀ f, f ≠ Field.meta → f ≠ Field.config_id →
      ∀ fv : FieldVal f, ∃ r', assign r f fv = .ok r') ∧
    (vcs r u).meta = r.meta ∧ (vcs r u).config.id = r.config.id ∧
    (code r c).meta = r.meta ∧ (code r c).config.id = r.config.id ∧
    (description r d).meta = r.meta ∧
    (description r d).config.id = r.config.id ∧
    (env r n v).meta = r.meta ∧ (env r n v).config.id = r.config.id ∧
    (tag r k a).meta = r.meta ∧ (tag r k a).config.id = r.config.id ∧
    (onEvent r e).meta = r.meta ∧
    (onEvent r e).config.id = r.config.id ∧
    (use r t acts al).meta = r.meta ∧
    (use r t acts al).config.id = r.config.id := by
  obtain ⟨hr, -⟩ := compute_ok_inv L runtime w w' r h
  subst hr
  refine ⟨?_, ?_, ?_, rfl, rfl, rfl, rfl, rfl, rfl, rfl, rfl, rfl,
    rfl, rfl, rfl, rfl, rfl⟩
  · simp [assign, mkCompute]
  · simp [assign, mkCompute]
  · intro f hf1 hf2 fv
    refine ⟨setField (mkCompute L runtime w) f fv, ?_⟩
    have hne : f ∉ ([.config_id, .meta] : List Field) := by
      cases f <;> simp_all
    simp only [assign, mkCompute]
    rw [if_neg hne]

/-- Witness for C7 on the resource built by
`compute "a" "b" ⟨0, 0⟩` with concrete arguments everywhere. -/
theorem sealed_identity_mutable_config_witness :
    assign (mkCompute "a" "b" ⟨0, 0⟩) .meta ⟨99, .Compute⟩ =
      .error .ImmutableFieldError ∧
    assign (mkCompute "a" "b" ⟨0, 0⟩) .config_id "x" =
      .error .ImmutableFieldError ∧
    (∀ f, f ≠ Field.meta → f ≠ Field.config_id →
      ∀ fv : FieldVal f,
        ∃ r', assign (mkCompute "a" "b" ⟨0, 0⟩) f fv = .ok r') ∧
    (vcs (mkCompute "a" "b" ⟨0, 0⟩) "u").meta =
      (mkCompute "a" "b" ⟨0, 0⟩).meta ∧
    (vcs (mkCompute "a" "b" ⟨0, 0⟩) "u").config.id =
      (mkCompute "a" "b" ⟨0, 0⟩).config.id ∧
    (code (mkCompute "a" "b" ⟨0, 0⟩) "c").meta =
      (mkCompute "a" "b" ⟨0, 0⟩).meta ∧
    (code (mkCompute "a" "b" ⟨0, 0⟩) "c").config.id =
      (mkCompute "a" "b" ⟨0, 0⟩).config.id ∧
    (description (mkCompute "a" "b" ⟨0, 0⟩) "d").meta =
      (mkCompute "a" "b" ⟨0, 0⟩).meta ∧
    (description (mkCompute "a" "b" ⟨0, 0⟩) "d").config.id =
      (mkCompute "a" "b" ⟨0, 0⟩).config.id ∧
    (env (mkCompute "a" "b" ⟨0, 0⟩) "n" "v").meta =
      (mkCompute "a" "b" ⟨0, 0⟩).meta ∧
    (env (mkCompute "a" "b" ⟨0, 0⟩) "n" "v").config.id =
      (mkCompute "a" "b" ⟨0, 0⟩).config.id ∧
    (tag (mkCompute "a" "b" ⟨0, 0⟩) "k" "a").meta =
      (mkCompute "a" "b" ⟨0, 0⟩).meta ∧
    (tag (mkCompute "a" "b" ⟨0, 0⟩) "k" "a").config.id =
      (mkCompute "a" "b" ⟨0, 0⟩).config.id ∧
    (onEvent (mkCompute "a" "b" ⟨0, 0⟩) ⟨7, .InternalEvent, "E"⟩).meta =
      (mkCompute "a" "b" ⟨0, 0⟩).meta ∧
    (onEvent (mkCompute "a" "b" ⟨0, 0⟩)
        ⟨7, .InternalEvent, "E"⟩).config.id =
      (mkCompute "a" "b" ⟨0, 0⟩).config.id ∧
    (use (mkCompute "a" "b" ⟨0, 0⟩) (mkCompute "t" "b" ⟨5, 5⟩)
        ["read"] none).meta = (mkCompute "a" "b" ⟨0, 0⟩).meta ∧
    (use (mkCompute "a" "b" ⟨0, 0⟩) (mkCompute "t" "b" ⟨5, 5⟩)
        ["read"] none).config.id =
      (mkCompute "a" "b" ⟨0, 0⟩).config.id :=
  sealed_identity_mutable_config "a" "b" ⟨0, 0⟩ ⟨1, 1⟩
    (mkCompute "a" "b" ⟨0, 0⟩) ⟨99, .Compute⟩ "x" "u" "c" "d" "n" "v"
    "k" "a" ⟨7, .InternalEvent, "E"⟩ (mkCompute "t" "b" ⟨5, 5⟩)
    ["read"] none rfl

/-- C8: setting the source-control URL and the inline code are not
mutually exclusive: after applying both setters in either order,
`config.vcs` and `config.code` hold both values simultaneously. -/
theorem vcs_code_not_exclusive (r : Resource) (u c : String) :
    (code (vcs r u) c).config.vcs = some u ∧
    (code (vcs r u) c).config.code = some c ∧
    (vcs (code r c) u).config.vcs = some u ∧
    (vcs (code r c) u).config.code = some c :=
  ⟨rfl, rfl, rfl, rfl⟩

/-- C9: two distinct calls to the Identity Allocator yield distinct
instance identifiers; two resources built in sequence from the same
label get distinct `meta.id`s; and the identifier does not depend on
the label — the same world with a different label yields the same
`meta.id`. -/
theorem identity_allocator_unique
    (wa wb w w₁ w₂ w₃ : World) (L L' runtime : String)
    (r₁ r₂ r₃ : Resource)
    (hlt : wa.nextUuid < wb.nextUuid)
    (h₁ : compute L runtime w = (.ok r₁, w₁))
    (h₂ : compute L runtime w₁ = (.ok r₂, w₂))
    (h₃ : compute L' runtime w = (.ok r₃, w₃)) :
    (uuid wa).1 ≠ (uuid wb).1 ∧
    r₁.meta.id ≠ r₂.meta.id ∧
    r₁.meta.id = r₃.meta.id := by
  obtain ⟨e₁, f₁⟩ := compute_ok_inv _ _ _ _ _ h₁
  obtain ⟨e₂, -⟩ := compute_ok_inv _ _ _ _ _ h₂
  obtain ⟨e₃, -⟩ := compute_ok_inv _ _ _ _ _ h₃
  subst e₁ e₂ e₃ f₁
  refine ⟨Nat.ne_of_lt hlt, ?_, rfl⟩
  simp [mkCompute]

/-- Witness for C9: sequential worlds and concrete labels. -/
theorem identity_allocator_unique_witness :
    (uuid ⟨0, 0⟩).1 ≠ (uuid ⟨1, 0⟩).1 ∧
    (mkCompute "a" "c" ⟨0, 0⟩).meta.id ≠
      (mkCompute "a" "c" ⟨1, 1⟩).meta.id ∧
    (mkCompute "a" "c" ⟨0, 0⟩).meta.id =
      (mkCompute "b" "c" ⟨0, 0⟩).meta.id :=
  identity_allocator_unique ⟨0, 0⟩ ⟨1, 0⟩ ⟨0, 0⟩ ⟨1, 1⟩ ⟨2, 2⟩ ⟨1, 1⟩
    "a" "b" "c" (mkCompute "a" "c" ⟨0, 0⟩) (mkCompute "a" "c" ⟨1, 1⟩)
    (mkCompute "b" "c" ⟨0, 0⟩) (by decide) rfl rfl rfl

/-- C10: `use` with the empty-string alias does not name the reference
`""`: because the alias is tested for truthiness, the name falls back
to `t.config.id ++ "Ref"`, exactly as when no alias is given. -/
theorem use_empty_alias_falls_back
    (r t : Resource) (actions : List String) :
    (use r t actions (some "")).config.references =
      r.config.references ++
        [{ name := t.config.id ++ "Ref", fromAddr := r.addr,
           toAddr := t.addr, allow := actions }] ∧
    use r t actions (some "") = use r t actions none := by
  constructor <;> simp [use]

end Scoot
